import Mathlib

/-!
Verification of the Discord paginating resource fetcher
(src/plugins/discord/fetcher.js).

The fetcher builds resource-specific endpoint strings, issues exactly one
transport invocation per method call, normalizes the raw JSON response into
typed records, and derives pagination metadata (hasNextPage, endCursor)
from the normalized result list and the configured per-resource limit.

Modelling conventions:
- Snowflake identifiers are strings.
- JavaScript optional fields (possibly `undefined`) are `Option` values;
  JS truthiness defaulting (`x || y`) is made explicit per field.
- The external collaborators from the `models` module
  (channelTypeFromId, emojiToRef, isAuthoredByNonUser) and the JS builtin
  Date.parse are consumed, not re-specified: they appear as function
  parameters.
- The injected transport is modelled as a state-passing function
  `F -> String -> sigma -> sigma x Except eps response`, where `F` is the
  abstract transport value held by the fetcher, `sigma` an arbitrary
  transport state, and `eps` an arbitrary error type.  Each fetcher method
  threads the transport state and returns the (possibly updated) fetcher
  value, the transport state, and either the propagated transport error
  or the normalized result.
-/

namespace Discord

/-- Model.Snowflake: a string-typed numeric identifier. -/
abbrev Snowflake := String

/-- FetchOptions from fetcher.js: guild id and per-resource page limits. -/
structure FetchOptions where
  guildId : Snowflake
  membersLimit : Nat
  messagesLimit : Nat
  reactionsLimit : Nat
  deriving Repr, DecidableEq

/-- PageInfo from fetcher.js. -/
structure PageInfo where
  hasNextPage : Bool
  endCursor : Option Snowflake
  deriving Repr, DecidableEq

/-- ResultPage from fetcher.js. -/
structure ResultPage (T : Type) where
  pageInfo : PageInfo
  results : List T
  deriving Repr, DecidableEq

/-- Raw guild JSON shape consumed by Fetcher.guild. -/
structure RawGuild where
  id : Snowflake
  name : String
  permissions : List String
  deriving Repr, DecidableEq

/-- Model.Guild: identity pass-through of the raw guild fields. -/
structure Guild where
  id : Snowflake
  name : String
  permissions : List String
  deriving Repr, DecidableEq

/-- Raw channel JSON shape: the type field is the raw integer code. -/
structure RawChannel where
  id : Snowflake
  name : String
  type : Nat
  deriving Repr, DecidableEq

/-- Model.Channel: the type field is a named variant computed by the external
classifier Model.channelTypeFromId, modelled here as its string name. -/
structure Channel where
  id : Snowflake
  name : String
  type : String
  deriving Repr, DecidableEq

/-- Raw user object inside a raw guild-member item.  The bot and system
fields are optional booleans (undefined when absent in the JSON). -/
structure RawUser where
  id : Snowflake
  username : String
  discriminator : String
  bot : Option Bool
  system : Option Bool
  deriving Repr, DecidableEq

/-- Raw guild-member item.  nick is an optional string (undefined when the
field is missing; the empty string is a possible, falsy, value). -/
structure RawMember where
  user : RawUser
  nick : Option String
  roles : List Snowflake
  deriving Repr, DecidableEq

/-- Normalized user record inside Model.GuildMember. -/
structure User where
  id : Snowflake
  username : String
  discriminator : String
  bot : Bool
  deriving Repr, DecidableEq

/-- Model.GuildMember. -/
structure GuildMember where
  user : User
  nick : Option String
  roles : List Snowflake
  deriving Repr, DecidableEq

/-- Model.Emoji: name plus optional numeric identifier. -/
structure Emoji where
  id : Option Snowflake
  name : String
  deriving Repr, DecidableEq

/-- One element of the raw reactions array on a raw message item; only its
emoji field is consumed by the normalizer. -/
structure RawMessageReaction where
  emoji : Emoji
  deriving Repr, DecidableEq

/-- Raw message author object; only its id field is consumed. -/
structure RawAuthor where
  id : Snowflake
  deriving Repr, DecidableEq

/-- One element of the raw mentions array: a user object, of which the
normalizer keeps only the id. -/
structure RawMention where
  id : Snowflake
  username : String
  deriving Repr, DecidableEq

/-- Raw message item.  reactions and mentions are optional arrays
(undefined when the fields are missing). -/
structure RawMessage where
  id : Snowflake
  author : RawAuthor
  timestamp : String
  content : String
  reactions : Option (List RawMessageReaction)
  mentions : Option (List RawMention)
  deriving Repr, DecidableEq

/-- Model.Message. -/
structure Message where
  id : Snowflake
  channelId : Snowflake
  authorId : Snowflake
  timestampMs : Int
  content : String
  reactionEmoji : List Emoji
  nonUserAuthor : Bool
  mentions : List Snowflake
  deriving Repr, DecidableEq

/-- Raw reaction item: the top-level id is the reacting user identifier. -/
structure RawReaction where
  id : Snowflake
  emoji : Emoji
  deriving Repr, DecidableEq

/-- Model.Reaction. -/
structure Reaction where
  emoji : Emoji
  channelId : Snowflake
  messageId : Snowflake
  authorId : Snowflake
  deriving Repr, DecidableEq

/-- JS truthiness of an optional boolean: undefined and false are falsy. -/
def truthyOptBool : Option Bool → Bool
  | some b => b
  | none => false

/-- JS `x.nick || null` where nick is an optional string: undefined and the
empty string are falsy and yield null; any other string passes through. -/
def jsStrOrNull : Option String → Option String
  | some s => if s = "" then none else some s
  | none => none

/-- The member normalizer from fetcher.js lines 79 to 88: the mapped
function building one GuildMember from one raw member item. -/
def normalizeMember (x : RawMember) : GuildMember :=
  { user :=
      { id := x.user.id
        username := x.user.username
        discriminator := x.user.discriminator
        bot := truthyOptBool x.user.bot || truthyOptBool x.user.system }
    nick := jsStrOrNull x.nick
    roles := x.roles }

/-- The channel normalizer from fetcher.js lines 68 to 72, parameterized by
the external classifier Model.channelTypeFromId. -/
def normalizeChannel (channelTypeFromId : Nat → String) (x : RawChannel) : Channel :=
  { id := x.id
    name := x.name
    type := channelTypeFromId x.type }

/-- The message normalizer from fetcher.js lines 103 to 112, parameterized
by the JS builtin Date.parse and the external classifier
Model.isAuthoredByNonUser. -/
def normalizeMessage (dateParse : String → Int)
    (isAuthoredByNonUser : RawMessage → Bool)
    (channel : Snowflake) (x : RawMessage) : Message :=
  { id := x.id
    channelId := channel
    authorId := x.author.id
    timestampMs := dateParse x.timestamp
    content := x.content
    reactionEmoji := (x.reactions.getD []).map (fun r => r.emoji)
    nonUserAuthor := isAuthoredByNonUser x
    mentions := (x.mentions.getD []).map (fun u => u.id) }

/-- The reaction normalizer from fetcher.js lines 130 to 135. -/
def normalizeReaction (channel message : Snowflake) (x : RawReaction) : Reaction :=
  { emoji := x.emoji
    channelId := channel
    messageId := message
    authorId := x.id }

/-- The ternary `response.length > 0 ? idOf(response[response.length - 1]) : null`
duplicated across the three paginated methods, with idOf the per-resource
projection of the raw item to its identifying field. -/
def lastRawId {α : Type} (idOf : α → Snowflake) (response : List α) : Option Snowflake :=
  if h : 0 < response.length then
    some (idOf (response.getLast (List.length_pos.mp h)))
  else
    none

/-- Fetcher.members lines 79 to 93: normalization and page metadata derived
from one raw members response. -/
def membersPage (membersLimit : Nat) (response : List RawMember) :
    ResultPage GuildMember :=
  let results := response.map normalizeMember
  let hasNextPage := results.length == membersLimit
  let endCursor := lastRawId (fun x => x.user.id) response
  { results := results, pageInfo := { hasNextPage := hasNextPage, endCursor := endCursor } }

/-- Fetcher.messages lines 103 to 117: normalization and page metadata
derived from one raw messages response. -/
def messagesPage (dateParse : String → Int)
    (isAuthoredByNonUser : RawMessage → Bool)
    (messagesLimit : Nat) (channel : Snowflake) (response : List RawMessage) :
    ResultPage Message :=
  let results := response.map (normalizeMessage dateParse isAuthoredByNonUser channel)
  let hasNextPage := results.length == messagesLimit
  let endCursor := lastRawId (fun x => x.id) response
  { results := results, pageInfo := { hasNextPage := hasNextPage, endCursor := endCursor } }

/-- Fetcher.reactions lines 130 to 140: normalization and page metadata
derived from one raw reactions response. -/
def reactionsPage (reactionsLimit : Nat) (channel message : Snowflake)
    (response : List RawReaction) : ResultPage Reaction :=
  let results := response.map (normalizeReaction channel message)
  let hasNextPage := results.length == reactionsLimit
  let endCursor := lastRawId (fun x => x.id) response
  { results := results, pageInfo := { hasNextPage := hasNextPage, endCursor := endCursor } }

/-- The Fetcher instance state: the injected transport value and the
immutable options, exactly the two fields set by the constructor.  The
transport value has an abstract type F; its call behavior is supplied to
each method as an interpretation at the response shape that endpoint
returns (the JS response type is `any`). -/
structure Fetcher (F : Type) where
  _fetch : F
  _options : FetchOptions

/-- Fetcher.guild lines 59 to 63.  Threads the transport state and returns
the fetcher value, the transport state, and the propagated error or the
normalized guild. -/
def Fetcher.guild {F σ ε : Type} (self : Fetcher F)
    (call : F → String → σ → σ × Except ε RawGuild) (s : σ) :
    Fetcher F × σ × Except ε Guild :=
  let guildId := self._options.guildId
  match call self._fetch ("guilds/" ++ guildId) s with
  | (s2, .error e) => (self, s2, .error e)
  | (s2, .ok g) => (self, s2, .ok { id := g.id, name := g.name, permissions := g.permissions })

/-- Fetcher.channels lines 68 to 72: the per-item normalization mapped
over one raw channels response. -/
def channelsList (channelTypeFromId : Nat → String) (response : List RawChannel) :
    List Channel :=
  response.map (normalizeChannel channelTypeFromId)

/-- Fetcher.channels lines 65 to 73, parameterized by the external
classifier Model.channelTypeFromId. -/
def Fetcher.channels {F σ ε : Type} (self : Fetcher F)
    (channelTypeFromId : Nat → String)
    (call : F → String → σ → σ × Except ε (List RawChannel)) (s : σ) :
    Fetcher F × σ × Except ε (List Channel) :=
  let guildId := self._options.guildId
  match call self._fetch ("/guilds/" ++ guildId ++ "/channels") s with
  | (s2, .error e) => (self, s2, .error e)
  | (s2, .ok response) => (self, s2, .ok (channelsList channelTypeFromId response))

/-- Fetcher.members lines 75 to 94. -/
def Fetcher.members {F σ ε : Type} (self : Fetcher F)
    (call : F → String → σ → σ × Except ε (List RawMember))
    (after : Snowflake) (s : σ) :
    Fetcher F × σ × Except ε (ResultPage GuildMember) :=
  let membersLimit := self._options.membersLimit
  let guildId := self._options.guildId
  let endpoint := "/guilds/" ++ guildId ++ "/members?after=" ++ after ++ "&limit=" ++ toString membersLimit
  match call self._fetch endpoint s with
  | (s2, .error e) => (self, s2, .error e)
  | (s2, .ok response) => (self, s2, .ok (membersPage membersLimit response))

/-- Fetcher.messages lines 96 to 118, parameterized by Date.parse and
Model.isAuthoredByNonUser. -/
def Fetcher.messages {F σ ε : Type} (self : Fetcher F)
    (dateParse : String → Int) (isAuthoredByNonUser : RawMessage → Bool)
    (call : F → String → σ → σ × Except ε (List RawMessage))
    (channel : Snowflake) (after : Snowflake) (s : σ) :
    Fetcher F × σ × Except ε (ResultPage Message) :=
  let messagesLimit := self._options.messagesLimit
  let endpoint := "/channels/" ++ channel ++ "/messages?after=" ++ after ++ "&limit=" ++ toString messagesLimit
  match call self._fetch endpoint s with
  | (s2, .error e) => (self, s2, .error e)
  | (s2, .ok response) =>
    (self, s2, .ok (messagesPage dateParse isAuthoredByNonUser messagesLimit channel response))

/-- Fetcher.reactions lines 120 to 141, parameterized by the external
encoder Model.emojiToRef. -/
def Fetcher.reactions {F σ ε : Type} (self : Fetcher F)
    (emojiToRef : Emoji → String)
    (call : F → String → σ → σ × Except ε (List RawReaction))
    (channel : Snowflake) (message : Snowflake) (emoji : Emoji)
    (after : Snowflake) (s : σ) :
    Fetcher F × σ × Except ε (ResultPage Reaction) :=
  let reactionsLimit := self._options.reactionsLimit
  let emojiRef := emojiToRef emoji
  let endpoint := "/channels/" ++ channel ++ "/messages/" ++ message ++ "/reactions/" ++ emojiRef ++ "?after=" ++ after ++ "&limit=" ++ toString reactionsLimit
  match call self._fetch endpoint s with
  | (s2, .error e) => (self, s2, .error e)
  | (s2, .ok response) => (self, s2, .ok (reactionsPage reactionsLimit channel message response))

/-- The duplicated endCursor ternary agrees with mapping the projection
over the last element of the raw list. -/
theorem lastRawId_eq {α : Type} (idOf : α → Snowflake) (l : List α) :
    lastRawId idOf l = l.getLast?.map idOf := by
  cases l with
  | nil => rfl
  | cons a as =>
    rw [lastRawId, dif_pos (by simp : (0 : Nat) < (a :: as).length),
      List.getLast?_eq_getLast (a :: as) (by simp)]
    rfl

/-- Claim C1: for every paginated fetch (members, messages, reactions) and
every raw response list, pageInfo.hasNextPage is true exactly when the
length of the normalized results list equals the configured limit for that
resource, for all limit values and response sizes. -/
theorem hasNextPage_iff_results_length_eq_limit
    (dateParse : String → Int) (isAuthoredByNonUser : RawMessage → Bool)
    (membersLimit messagesLimit reactionsLimit : Nat)
    (channel message : Snowflake)
    (mRes : List RawMember) (sRes : List RawMessage) (rRes : List RawReaction) :
    ((membersPage membersLimit mRes).pageInfo.hasNextPage = true
      ↔ (membersPage membersLimit mRes).results.length = membersLimit)
    ∧ ((messagesPage dateParse isAuthoredByNonUser messagesLimit channel sRes).pageInfo.hasNextPage = true
      ↔ (messagesPage dateParse isAuthoredByNonUser messagesLimit channel sRes).results.length = messagesLimit)
    ∧ ((reactionsPage reactionsLimit channel message rRes).pageInfo.hasNextPage = true
      ↔ (reactionsPage reactionsLimit channel message rRes).results.length = reactionsLimit) := by
  refine ⟨?_, ?_, ?_⟩ <;> simp [membersPage, messagesPage, reactionsPage]

/-- Claim C2: for every paginated fetch, pageInfo.endCursor equals the
identifying field of the last element of the raw response list (user.id
for a member item, the top-level id for a message or reaction item) when
the raw list is non-empty, and is none exactly when the raw list is
empty. -/
theorem endCursor_eq_last_raw_id
    (dateParse : String → Int) (isAuthoredByNonUser : RawMessage → Bool)
    (membersLimit messagesLimit reactionsLimit : Nat)
    (channel message : Snowflake)
    (mRes : List RawMember) (sRes : List RawMessage) (rRes : List RawReaction) :
    ((membersPage membersLimit mRes).pageInfo.endCursor
        = mRes.getLast?.map (fun x => x.user.id))
    ∧ ((membersPage membersLimit mRes).pageInfo.endCursor = none ↔ mRes = [])
    ∧ ((messagesPage dateParse isAuthoredByNonUser messagesLimit channel sRes).pageInfo.endCursor
        = sRes.getLast?.map (fun x => x.id))
    ∧ ((messagesPage dateParse isAuthoredByNonUser messagesLimit channel sRes).pageInfo.endCursor = none ↔ sRes = [])
    ∧ ((reactionsPage reactionsLimit channel message rRes).pageInfo.endCursor
        = rRes.getLast?.map (fun x => x.id))
    ∧ ((reactionsPage reactionsLimit channel message rRes).pageInfo.endCursor = none ↔ rRes = []) := by
  refine ⟨?_, ?_, ?_, ?_, ?_, ?_⟩ <;>
    simp [membersPage, messagesPage, reactionsPage, lastRawId_eq, Option.map_eq_none',
      List.getLast?_eq_none_iff]

/-- Claim C4: for every raw response list, the normalized results list
returned by channels, members, messages and reactions has the same length
as the raw list, and its element at every index i is the normalization of
the raw element at index i. -/
theorem normalization_length_preserving_elementwise
    (channelTypeFromId : Nat → String)
    (dateParse : String → Int) (isAuthoredByNonUser : RawMessage → Bool)
    (membersLimit messagesLimit reactionsLimit : Nat)
    (channel message : Snowflake)
    (cRes : List RawChannel) (mRes : List RawMember)
    (sRes : List RawMessage) (rRes : List RawReaction) (i : Nat) :
    ((channelsList channelTypeFromId cRes).length = cRes.length
      ∧ (channelsList channelTypeFromId cRes)[i]?
          = (cRes[i]?).map (normalizeChannel channelTypeFromId))
    ∧ ((membersPage membersLimit mRes).results.length = mRes.length
      ∧ (membersPage membersLimit mRes).results[i]?
          = (mRes[i]?).map normalizeMember)
    ∧ ((messagesPage dateParse isAuthoredByNonUser messagesLimit channel sRes).results.length = sRes.length
      ∧ (messagesPage dateParse isAuthoredByNonUser messagesLimit channel sRes).results[i]?
          = (sRes[i]?).map (normalizeMessage dateParse isAuthoredByNonUser channel))
    ∧ ((reactionsPage reactionsLimit channel message rRes).results.length = rRes.length
      ∧ (reactionsPage reactionsLimit channel message rRes).results[i]?
          = (rRes[i]?).map (normalizeReaction channel message)) := by
  refine ⟨⟨?_, ?_⟩, ⟨?_, ?_⟩, ⟨?_, ?_⟩, ⟨?_, ?_⟩⟩ <;>
    simp [channelsList, membersPage, messagesPage, reactionsPage, List.getElem?_map]

/-- Claim C5: the normalized GuildMember has bot true exactly when raw
user.bot or raw user.system is true; nick is absent exactly when the raw
nick field is falsy (missing or the empty string); roles is the raw roles
sequence unchanged. -/
theorem member_normalization_rules (x : RawMember) :
    ((normalizeMember x).user.bot = true
      ↔ (x.user.bot = some true ∨ x.user.system = some true))
    ∧ ((normalizeMember x).nick = none ↔ (x.nick = none ∨ x.nick = some ""))
    ∧ (normalizeMember x).roles = x.roles := by
  refine ⟨?_, ?_, rfl⟩
  · cases hb : x.user.bot <;> cases hs : x.user.system <;>
      simp [normalizeMember, truthyOptBool, hb, hs]
  · cases hn : x.nick with
    | none => simp [normalizeMember, jsStrOrNull, hn]
    | some s =>
      by_cases he : s = "" <;> simp [normalizeMember, jsStrOrNull, hn, he]

/-- Claim C6: the normalized Message has timestampMs equal to the parsed
raw timestamp, reactionEmoji the emoji objects of the raw reactions field
(empty when absent), and mentions the id fields of the raw mentions field
(empty when absent). -/
theorem message_normalization_rules
    (dateParse : String → Int) (isAuthoredByNonUser : RawMessage → Bool)
    (channel : Snowflake) (x : RawMessage) :
    (normalizeMessage dateParse isAuthoredByNonUser channel x).timestampMs
        = dateParse x.timestamp
    ∧ (normalizeMessage dateParse isAuthoredByNonUser channel x).reactionEmoji
        = (match x.reactions with
           | none => []
           | some rs => rs.map (fun r => r.emoji))
    ∧ (normalizeMessage dateParse isAuthoredByNonUser channel x).mentions
        = (match x.mentions with
           | none => []
           | some us => us.map (fun u => u.id)) := by
  refine ⟨rfl, ?_, ?_⟩
  · cases hr : x.reactions <;> simp [normalizeMessage, hr]
  · cases hm : x.mentions <;> simp [normalizeMessage, hm]

/-- Claim C7: the normalized Reaction is exactly the raw emoji, the
passed-through channel and message arguments, and the raw item top-level
id as authorId. -/
theorem reaction_normalization_rule (channel message : Snowflake) (x : RawReaction) :
    normalizeReaction channel message x
      = { emoji := x.emoji
          channelId := channel
          messageId := message
          authorId := x.id } := rfl

/-- Claim C3: instrumenting the transport with a request log shows that
each fetcher method issues exactly one request, at the path obtained by
direct string interpolation of the documented template, whatever the
transport answers: guild has no leading slash, all other resources do,
channels carries no query parameters, and the paginated resources carry
the cursor and their configured limit. -/
theorem requested_paths_match_templates
    (F ε : Type) (f : F) (opts : FetchOptions)
    (channelTypeFromId : Nat → String)
    (dateParse : String → Int) (isAuthoredByNonUser : RawMessage → Bool)
    (emojiToRef : Emoji → String)
    (channel message c : Snowflake) (emoji : Emoji)
    (rG : Except ε RawGuild) (rC : Except ε (List RawChannel))
    (rM : Except ε (List RawMember)) (rS : Except ε (List RawMessage))
    (rR : Except ε (List RawReaction)) (log : List String) :
    (((Fetcher.mk f opts).guild (fun _ e l => (l ++ [e], rG)) log).2.1
        = log ++ ["guilds/" ++ opts.guildId])
    ∧ (((Fetcher.mk f opts).channels channelTypeFromId (fun _ e l => (l ++ [e], rC)) log).2.1
        = log ++ ["/guilds/" ++ opts.guildId ++ "/channels"])
    ∧ (((Fetcher.mk f opts).members (fun _ e l => (l ++ [e], rM)) c log).2.1
        = log ++ ["/guilds/" ++ opts.guildId ++ "/members?after=" ++ c
            ++ "&limit=" ++ toString opts.membersLimit])
    ∧ (((Fetcher.mk f opts).messages dateParse isAuthoredByNonUser
          (fun _ e l => (l ++ [e], rS)) channel c log).2.1
        = log ++ ["/channels/" ++ channel ++ "/messages?after=" ++ c
            ++ "&limit=" ++ toString opts.messagesLimit])
    ∧ (((Fetcher.mk f opts).reactions emojiToRef (fun _ e l => (l ++ [e], rR))
          channel message emoji c log).2.1
        = log ++ ["/channels/" ++ channel ++ "/messages/" ++ message
            ++ "/reactions/" ++ emojiToRef emoji ++ "?after=" ++ c
            ++ "&limit=" ++ toString opts.reactionsLimit]) := by
  refine ⟨?_, ?_, ?_, ?_, ?_⟩
  · cases rG <;> rfl
  · cases rC <;> rfl
  · cases rM <;> rfl
  · cases rS <;> rfl
  · cases rR <;> rfl

/-- Claim C8: over an arbitrary stateful transport, each fetcher method
leaves the transport state exactly as a single invocation at its endpoint
leaves it (so the transport is invoked exactly once, with no retry), and
whenever that single invocation produces an error, the method returns that
same error unchanged. -/
theorem single_invocation_and_error_propagation
    {F σ ε : Type} (f : F) (opts : FetchOptions) (s : σ)
    (callG : F → String → σ → σ × Except ε RawGuild)
    (callC : F → String → σ → σ × Except ε (List RawChannel))
    (callM : F → String → σ → σ × Except ε (List RawMember))
    (callS : F → String → σ → σ × Except ε (List RawMessage))
    (callR : F → String → σ → σ × Except ε (List RawReaction))
    (channelTypeFromId : Nat → String)
    (dateParse : String → Int) (isAuthoredByNonUser : RawMessage → Bool)
    (emojiToRef : Emoji → String)
    (channel message c : Snowflake) (emoji : Emoji) :
    (((Fetcher.mk f opts).guild callG s).2.1
        = (callG f ("guilds/" ++ opts.guildId) s).1)
    ∧ (∀ s2 e, callG f ("guilds/" ++ opts.guildId) s = (s2, .error e) →
        (Fetcher.mk f opts).guild callG s = (Fetcher.mk f opts, s2, .error e))
    ∧ (((Fetcher.mk f opts).channels channelTypeFromId callC s).2.1
        = (callC f ("/guilds/" ++ opts.guildId ++ "/channels") s).1)
    ∧ (∀ s2 e, callC f ("/guilds/" ++ opts.guildId ++ "/channels") s = (s2, .error e) →
        (Fetcher.mk f opts).channels channelTypeFromId callC s
          = (Fetcher.mk f opts, s2, .error e))
    ∧ (((Fetcher.mk f opts).members callM c s).2.1
        = (callM f ("/guilds/" ++ opts.guildId ++ "/members?after=" ++ c
            ++ "&limit=" ++ toString opts.membersLimit) s).1)
    ∧ (∀ s2 e, callM f ("/guilds/" ++ opts.guildId ++ "/members?after=" ++ c
            ++ "&limit=" ++ toString opts.membersLimit) s = (s2, .error e) →
        (Fetcher.mk f opts).members callM c s = (Fetcher.mk f opts, s2, .error e))
    ∧ (((Fetcher.mk f opts).messages dateParse isAuthoredByNonUser callS channel c s).2.1
        = (callS f ("/channels/" ++ channel ++ "/messages?after=" ++ c
            ++ "&limit=" ++ toString opts.messagesLimit) s).1)
    ∧ (∀ s2 e, callS f ("/channels/" ++ channel ++ "/messages?after=" ++ c
            ++ "&limit=" ++ toString opts.messagesLimit) s = (s2, .error e) →
        (Fetcher.mk f opts).messages dateParse isAuthoredByNonUser callS channel c s
          = (Fetcher.mk f opts, s2, .error e))
    ∧ (((Fetcher.mk f opts).reactions emojiToRef callR channel message emoji c s).2.1
        = (callR f ("/channels/" ++ channel ++ "/messages/" ++ message
            ++ "/reactions/" ++ emojiToRef emoji ++ "?after=" ++ c
            ++ "&limit=" ++ toString opts.reactionsLimit) s).1)
    ∧ (∀ s2 e, callR f ("/channels/" ++ channel ++ "/messages/" ++ message
            ++ "/reactions/" ++ emojiToRef emoji ++ "?after=" ++ c
            ++ "&limit=" ++ toString opts.reactionsLimit) s = (s2, .error e) →
        (Fetcher.mk f opts).reactions emojiToRef callR channel message emoji c s
          = (Fetcher.mk f opts, s2, .error e)) := by
  refine ⟨?_, ?_, ?_, ?_, ?_, ?_, ?_, ?_, ?_, ?_⟩
  · rcases h : callG f ("guilds/" ++ opts.guildId) s with ⟨s2, r⟩
    cases r <;> simp [Fetcher.guild, h]
  · intro s2 e h
    simp [Fetcher.guild, h]
  · rcases h : callC f ("/guilds/" ++ opts.guildId ++ "/channels") s with ⟨s2, r⟩
    cases r <;> simp [Fetcher.channels, h]
  · intro s2 e h
    simp [Fetcher.channels, h]
  · rcases h : callM f ("/guilds/" ++ opts.guildId ++ "/members?after=" ++ c
        ++ "&limit=" ++ toString opts.membersLimit) s with ⟨s2, r⟩
    cases r <;> simp [Fetcher.members, h]
  · intro s2 e h
    simp [Fetcher.members, h]
  · rcases h : callS f ("/channels/" ++ channel ++ "/messages?after=" ++ c
        ++ "&limit=" ++ toString opts.messagesLimit) s with ⟨s2, r⟩
    cases r <;> simp [Fetcher.messages, h]
  · intro s2 e h
    simp [Fetcher.messages, h]
  · rcases h : callR f ("/channels/" ++ channel ++ "/messages/" ++ message
        ++ "/reactions/" ++ emojiToRef emoji ++ "?after=" ++ c
        ++ "&limit=" ++ toString opts.reactionsLimit) s with ⟨s2, r⟩
    cases r <;> simp [Fetcher.reactions, h]
  · intro s2 e h
    simp [Fetcher.reactions, h]

/-- Claim C9: no fetcher method call changes the fetcher value: the
configuration and the injected transport value held by the instance are
returned unchanged by every method, whatever the transport does. -/
theorem methods_preserve_fetcher_state
    {F σ ε : Type} (self : Fetcher F) (s : σ)
    (callG : F → String → σ → σ × Except ε RawGuild)
    (callC : F → String → σ → σ × Except ε (List RawChannel))
    (callM : F → String → σ → σ × Except ε (List RawMember))
    (callS : F → String → σ → σ × Except ε (List RawMessage))
    (callR : F → String → σ → σ × Except ε (List RawReaction))
    (channelTypeFromId : Nat → String)
    (dateParse : String → Int) (isAuthoredByNonUser : RawMessage → Bool)
    (emojiToRef : Emoji → String)
    (channel message c : Snowflake) (emoji : Emoji) :
    ((self.guild callG s).1 = self)
    ∧ ((self.channels channelTypeFromId callC s).1 = self)
    ∧ ((self.members callM c s).1 = self)
    ∧ ((self.messages dateParse isAuthoredByNonUser callS channel c s).1 = self)
    ∧ ((self.reactions emojiToRef callR channel message emoji c s).1 = self) := by
  refine ⟨?_, ?_, ?_, ?_, ?_⟩
  · rcases h : callG self._fetch ("guilds/" ++ self._options.guildId) s with ⟨s2, r⟩
    cases r <;> simp [Fetcher.guild, h]
  · rcases h : callC self._fetch ("/guilds/" ++ self._options.guildId ++ "/channels") s
      with ⟨s2, r⟩
    cases r <;> simp [Fetcher.channels, h]
  · rcases h : callM self._fetch ("/guilds/" ++ self._options.guildId ++ "/members?after="
        ++ c ++ "&limit=" ++ toString self._options.membersLimit) s with ⟨s2, r⟩
    cases r <;> simp [Fetcher.members, h]
  · rcases h : callS self._fetch ("/channels/" ++ channel ++ "/messages?after=" ++ c
        ++ "&limit=" ++ toString self._options.messagesLimit) s with ⟨s2, r⟩
    cases r <;> simp [Fetcher.messages, h]
  · rcases h : callR self._fetch ("/channels/" ++ channel ++ "/messages/" ++ message
        ++ "/reactions/" ++ emojiToRef emoji ++ "?after=" ++ c
        ++ "&limit=" ++ toString self._options.reactionsLimit) s with ⟨s2, r⟩
    cases r <;> simp [Fetcher.reactions, h]

/-- Claim C10: for every paginated fetch with a positive configured limit,
hasNextPage = true implies endCursor is present, and an empty raw response
yields exactly the page info with hasNextPage false and no cursor. -/
theorem positive_limit_page_invariant
    (dateParse : String → Int) (isAuthoredByNonUser : RawMessage → Bool)
    (membersLimit messagesLimit reactionsLimit : Nat)
    (channel message : Snowflake)
    (mRes : List RawMember) (sRes : List RawMessage) (rRes : List RawReaction)
    (hm : 0 < membersLimit) (hs : 0 < messagesLimit) (hr : 0 < reactionsLimit) :
    (((membersPage membersLimit mRes).pageInfo.hasNextPage = true →
        ((membersPage membersLimit mRes).pageInfo.endCursor).isSome = true)
      ∧ (mRes = [] → (membersPage membersLimit mRes).pageInfo
          = { hasNextPage := false, endCursor := none }))
    ∧ (((messagesPage dateParse isAuthoredByNonUser messagesLimit channel sRes).pageInfo.hasNextPage = true →
        ((messagesPage dateParse isAuthoredByNonUser messagesLimit channel sRes).pageInfo.endCursor).isSome = true)
      ∧ (sRes = [] → (messagesPage dateParse isAuthoredByNonUser messagesLimit channel sRes).pageInfo
          = { hasNextPage := false, endCursor := none }))
    ∧ (((reactionsPage reactionsLimit channel message rRes).pageInfo.hasNextPage = true →
        ((reactionsPage reactionsLimit channel message rRes).pageInfo.endCursor).isSome = true)
      ∧ (rRes = [] → (reactionsPage reactionsLimit channel message rRes).pageInfo
          = { hasNextPage := false, endCursor := none })) := by
  refine ⟨⟨?_, ?_⟩, ⟨?_, ?_⟩, ⟨?_, ?_⟩⟩
  · intro h
    have hlen : mRes.length = membersLimit := by simpa [membersPage] using h
    have hne : mRes ≠ [] := by
      intro heq
      subst heq
      simp at hlen
      omega
    simp [membersPage, lastRawId_eq, hne]
  · intro heq
    subst heq
    simp [membersPage, lastRawId, PageInfo.mk.injEq]
    omega
  · intro h
    have hlen : sRes.length = messagesLimit := by simpa [messagesPage] using h
    have hne : sRes ≠ [] := by
      intro heq
      subst heq
      simp at hlen
      omega
    simp [messagesPage, lastRawId_eq, hne]
  · intro heq
    subst heq
    simp [messagesPage, lastRawId, PageInfo.mk.injEq]
    omega
  · intro h
    have hlen : rRes.length = reactionsLimit := by simpa [reactionsPage] using h
    have hne : rRes ≠ [] := by
      intro heq
      subst heq
      simp at hlen
      omega
    simp [reactionsPage, lastRawId_eq, hne]
  · intro heq
    subst heq
    simp [reactionsPage, lastRawId, PageInfo.mk.injEq]
    omega

/-- A raw member item as in testUtil.js. -/
def sampleRawUser : RawUser :=
  { id := "1", username := "username", discriminator := "disc",
    bot := some true, system := none }

/-- A raw member item as in testUtil.js. -/
def sampleRawMember : RawMember :=
  { user := sampleRawUser, nick := some "nickname", roles := ["test role"] }

/-- The emoji used by the repository tests. -/
def sampleEmoji : Emoji := { id := some "1", name := "testemoji" }

/-- The default options used by the repository tests. -/
def sampleOptions : FetchOptions :=
  { guildId := "1", membersLimit := 2, messagesLimit := 100, reactionsLimit := 100 }

/-- A stand-in for the external Date.parse collaborator: the epoch
millisecond value of the timestamp used by the repository tests. -/
def sampleDateParse : String → Int := fun _ => 1583278510615

/-- A stand-in for the external Model.isAuthoredByNonUser collaborator. -/
def sampleNonUserAuthor : RawMessage → Bool := fun _ => false

/-- A transport interpretation that counts its invocations and always
answers with an error. -/
def sampleErrCall {ρ : Type} : Unit → String → Nat → Nat × Except String ρ :=
  fun _ _ n => (n + 1, .error "boom")

/-- Witness for claim C8 at a concrete transport: one members call against
an erroring transport bumps the invocation counter exactly once and
returns the transport error unchanged. -/
theorem single_invocation_and_error_propagation_witness :
    (Fetcher.mk () sampleOptions).members sampleErrCall "0" 0
      = (Fetcher.mk () sampleOptions, 1, .error "boom") := by
  have h := single_invocation_and_error_propagation (σ := Nat) () sampleOptions 0
    sampleErrCall sampleErrCall sampleErrCall sampleErrCall sampleErrCall
    (fun _ => "GUILD_TEXT") sampleDateParse sampleNonUserAuthor
    (fun e => e.name) "1" "2" "0" sampleEmoji
  exact h.2.2.2.2.2.1 1 "boom" rfl

/-- Witness for claim C10 at concrete inputs: with limit 1, a full page of
members has a present endCursor, and empty message and reaction responses
yield the terminal page info. -/
theorem positive_limit_page_invariant_witness :
    ((membersPage 1 [sampleRawMember]).pageInfo.endCursor).isSome = true
    ∧ (messagesPage sampleDateParse sampleNonUserAuthor 1 "123" []).pageInfo
        = { hasNextPage := false, endCursor := none }
    ∧ (reactionsPage 1 "123" "2" []).pageInfo
        = { hasNextPage := false, endCursor := none } := by
  have h := positive_limit_page_invariant sampleDateParse sampleNonUserAuthor
    1 1 1 "123" "2" [sampleRawMember] [] []
    (by decide) (by decide) (by decide)
  exact ⟨h.1.1 (by decide), h.2.1.2 rfl, h.2.2.2 rfl⟩

end Discord
